import Mathlib

/-!
Verification of the mesh / primitive traversal layer of a glTF loader
(`src/mesh.rs`), shallowly embedded in Lean 4.

Rust constructs are modelled as follows:
* a method taking `&self` (and the shared `&Gltf` back-reference) becomes a
  pure Lean function taking the schema tree `Gltf` explicitly;
* a Rust `panic` (from `Option::unwrap`, `Checked::unwrap`, or
  `Result::unwrap`) becomes the `Res.crash` outcome; returned values become
  `Res.ok`;
* the `HashMap<Checked<Semantic>, Index<Accessor>>` attribute map becomes an
  association list, iterated in list order (hash iteration order is
  unspecified in Rust; the list fixes one order, lookups are order-independent
  for the unique keys a map guarantees);
* `serde_json::Value` becomes the inductive `Value`, with numbers carried as
  rationals (no arithmetic is performed on them in this layer, they are only
  moved around, so the carrier is irrelevant to the modelled behaviour);
* `f32` scalars (morph weights, decoded bounds) are likewise carried as `Rat`.
-/

namespace GltfSpec

/-- Outcome of running a piece of Rust code that may panic: `crash` models a
panic, `ok` a normal return. -/
inductive Res (α : Type) where
  | crash : Res α
  | ok (val : α) : Res α
deriving DecidableEq

/-- Modelled from the spec: the schema crate's `json::validation::Checked`
wrapper (the schema type definitions are external collaborators).  A value
deserialized from the document is either a recognized (`Valid`) value of the
underlying type or `Invalid`. -/
inductive Checked (α : Type) where
  | Valid (val : α) : Checked α
  | Invalid : Checked α
deriving DecidableEq

/-- Modelled from the spec: `Checked::unwrap` returns the valid value and
panics on `Invalid`. -/
def Checked.unwrap {α : Type} : Checked α → Res α
  | .Valid v => .ok v
  | .Invalid => .crash

/-- Vertex attribute semantic names (`json::mesh::Semantic`, re-exported by
`mesh.rs`), without the build-time `extras` feature. -/
inductive Semantic where
  | Positions : Semantic
  | Normals : Semantic
  | Tangents : Semantic
  | Colors (set : Nat) : Semantic
  | TexCoords (set : Nat) : Semantic
  | Joints (set : Nat) : Semantic
  | Weights (set : Nat) : Semantic
deriving DecidableEq

/-- Render modes (`json::mesh::Mode`, re-exported by `mesh.rs`). -/
inductive Mode where
  | Points | Lines | LineLoop | LineStrip
  | Triangles | TriangleStrip | TriangleFan
deriving DecidableEq

/-- Generic JSON values (`serde_json::Value`) as far as this layer inspects
them: numbers, arrays, and everything else. -/
inductive Value where
  | num (q : Rat) : Value
  | arr (elems : List Value) : Value
  | other : Value

/-- Modelled from the spec: `json::from_value::<[f32; 3]>` — deserializing a
generic JSON value as a 3-component float vector succeeds exactly on an array
of three numbers. -/
def from_value_vec3 : Value → Option (Rat × Rat × Rat)
  | .arr [.num a, .num b, .num c] => some (a, b, c)
  | _ => none

/-- The fields of a schema-tree accessor that `mesh.rs` reads: the declared
per-component bounds (generic JSON values, optional). -/
structure AccessorJson where
  min : Option Value
  max : Option Value

/-- A schema-tree material entry (opaque to this layer). -/
structure MaterialJson where
  name : Option String
deriving DecidableEq

/-- The fields of `json::mesh::Primitive` that `mesh.rs` reads. -/
structure PrimitiveJson where
  attributes : List (Checked Semantic × Nat)
  indices : Option Nat
  material : Option Nat
  mode : Checked Mode

/-- The fields of `json::mesh::Mesh` that `mesh.rs` reads. -/
structure MeshJson where
  primitives : List PrimitiveJson
  weights : Option (List Rat)

/-- Modelled from the spec: the Schema Tree — immutable arrays of accessors
and materials referenced by integer index (the `Gltf` root wrapper lives
outside the excerpted source). -/
structure Gltf where
  accessors : List AccessorJson
  materials : List MaterialJson

/-- An accessor wrapper: the JSON index together with the schema-tree entry
it resolves to. -/
structure Accessor where
  index : Nat
  json : AccessorJson

/-- Declared minimum bounds of the accessor (`Accessor::min`). -/
def Accessor.min (a : Accessor) : Option Value := a.json.min

/-- Declared maximum bounds of the accessor (`Accessor::max`). -/
def Accessor.max (a : Accessor) : Option Value := a.json.max

/-- Modelled from the spec: a material wrapper is either the built-in default
material or the schema-tree material at a given index. -/
inductive Material where
  | defaultMaterial : Material
  | atIndex (index : Nat) (json : MaterialJson) : Material
deriving DecidableEq

/-- Modelled from the spec: `gltf.accessors().nth(i)` — resolving accessor
index `i` against the Schema Tree yields the wrapper at `i` when `i` is in
range and nothing otherwise (an index at or beyond array length is a
resolution failure). -/
def Gltf.accessors_nth (g : Gltf) (i : Nat) : Option Accessor :=
  (g.accessors.get? i).map (fun j => { index := i, json := j })

/-- Modelled from the spec: `gltf.materials().nth(i)` — resolving material
index `i` against the Schema Tree. -/
def Gltf.materials_nth (g : Gltf) (i : Nat) : Option Material :=
  (g.materials.get? i).map (fun j => Material.atIndex i j)

/-- Vertex attribute data (`Attribute` in `mesh.rs`), without the build-time
`extras` feature. -/
inductive Attribute where
  | Colors (set : Nat) (acc : Accessor) : Attribute
  | Joints (set : Nat) (acc : Accessor) : Attribute
  | Positions (acc : Accessor) : Attribute
  | Normals (acc : Accessor) : Attribute
  | Tangents (acc : Accessor) : Attribute
  | TexCoords (set : Nat) (acc : Accessor) : Attribute
  | Weights (set : Nat) (acc : Accessor) : Attribute

/-- A mesh wrapper: the JSON index and JSON entry (the `&Gltf` back-reference
is passed explicitly to each operation). -/
structure Mesh where
  index : Nat
  json : MeshJson

/-- A primitive wrapper: parent-relative JSON index and JSON entry. -/
structure Primitive where
  index : Nat
  json : PrimitiveJson

/-- Accessor bounds (`Bounds<T>` in `mesh.rs`). -/
structure Bounds (T : Type) where
  min : T
  max : T
deriving DecidableEq

/-- `HashMap::get`: look a key up in the attribute association list. -/
def assocGet {κ ν : Type} [DecidableEq κ] : List (κ × ν) → κ → Option ν
  | [], _ => none
  | e :: rest, k => if e.1 = k then some e.2 else assocGet rest k

/-- Removing every entry with a given key from an association list — used only
to state that the absence of one semantic does not affect looking up
another. -/
def eraseKey {κ ν : Type} [DecidableEq κ] (k : κ) : List (κ × ν) → List (κ × ν)
  | [] => []
  | e :: rest => if e.1 = k then eraseKey k rest else e :: eraseKey k rest

/-- The state of the `Attributes` iterator: the entries not yet visited. -/
structure Attributes where
  entries : List (Checked Semantic × Nat)

/-- The state of the `Primitives` iterator: the enumerated JSON primitives
not yet visited. -/
structure Primitives where
  iter : List (Nat × PrimitiveJson)

/-- `iter::Enumerate`: pair each element with its position, starting at
`base`. -/
def enumerate {α : Type} (base : Nat) : List α → List (Nat × α)
  | [] => []
  | x :: xs => (base, x) :: enumerate (base + 1) xs

/-- `Mesh::primitives`: an iterator over the enumerated JSON primitive
array. -/
def Mesh.primitives (m : Mesh) : Primitives :=
  { iter := enumerate 0 m.json.primitives }

/-- `Mesh::weights`: the optional morph-target weight defaults, straight from
the JSON entry. -/
def Mesh.weights (m : Mesh) : Option (List Rat) :=
  m.json.weights

/-- `Primitives::next`: yield a `Primitive` wrapper for the next enumerated
JSON primitive. -/
def Primitives.next : Primitives → Option (Primitive × Primitives)
  | { iter := [] } => none
  | { iter := (i, j) :: rest } => some ({ index := i, json := j }, { iter := rest })

/-- Running the enumerated-primitive list to exhaustion, one wrapper per
entry (the recursion underlying repeated `Primitives::next`). -/
def primsList : List (Nat × PrimitiveJson) → List Primitive
  | [] => []
  | (i, j) :: rest => { index := i, json := j } :: primsList rest

/-- Running the `Primitives` iterator to exhaustion (repeated
`Primitives::next`). -/
def Primitives.toList (it : Primitives) : List Primitive :=
  primsList it.iter

/-- `Primitive::get`: look the semantic up in the attribute map; on a hit,
resolve the stored accessor index (`accessors().nth(i).unwrap()`, which
panics when out of range). -/
def Primitive.get (g : Gltf) (p : Primitive) (semantic : Semantic) : Res (Option Accessor) :=
  match assocGet p.json.attributes (Checked.Valid semantic) with
  | none => .ok none
  | some index =>
    match g.accessors_nth index with
    | some accessor => .ok (some accessor)
    | none => .crash

/-- `Primitive::indices`: resolve the optional indices accessor reference
(panics when the stored index is out of range). -/
def Primitive.indices (g : Gltf) (p : Primitive) : Res (Option Accessor) :=
  match p.json.indices with
  | none => .ok none
  | some index =>
    match g.accessors_nth index with
    | some accessor => .ok (some accessor)
    | none => .crash

/-- `Primitive::material`: resolve the optional material reference (panics
when the stored index is out of range), defaulting to the built-in default
material when absent. -/
def Primitive.material (g : Gltf) (p : Primitive) : Res Material :=
  match p.json.material with
  | none => .ok Material.defaultMaterial
  | some index =>
    match g.materials_nth index with
    | some m => .ok m
    | none => .crash

/-- `Primitive::mode`: unwrap the checked render mode (panics on an invalid
mode value). -/
def Primitive.mode (p : Primitive) : Res Mode :=
  Checked.unwrap p.json.mode

/-- `Primitive::position_bounds`: if a `Positions` attribute is present,
resolve its accessor and decode the declared min/max JSON values as
3-component float vectors, panicking (`unwrap`) when the accessor index is
out of range, a bound is missing, or a bound fails to decode. -/
def Primitive.position_bounds (g : Gltf) (p : Primitive) : Res (Option (Bounds (Rat × Rat × Rat))) :=
  match assocGet p.json.attributes (Checked.Valid Semantic.Positions) with
  | none => .ok none
  | some index =>
    match g.accessors_nth index with
    | none => .crash
    | some pos_accessor =>
      match pos_accessor.min with
      | none => .crash
      | some mn =>
        match from_value_vec3 mn with
        | none => .crash
        | some minv =>
          match pos_accessor.max with
          | none => .crash
          | some mx =>
            match from_value_vec3 mx with
            | none => .crash
            | some maxv => .ok (some { min := minv, max := maxv })

/-- `Primitive::attributes`: an iterator over the primitive's attribute-map
entries. -/
def Primitive.attributes (p : Primitive) : Attributes :=
  { entries := p.json.attributes }

/-- The match block of `Attributes::next`: wrap a resolved accessor in the
`Attribute` variant selected by the semantic. -/
def attrOfSem (semantic : Semantic) (accessor : Accessor) : Attribute :=
  match semantic with
  | .Positions => .Positions accessor
  | .Normals => .Normals accessor
  | .Tangents => .Tangents accessor
  | .Colors set => .Colors set accessor
  | .TexCoords set => .TexCoords set accessor
  | .Joints set => .Joints set accessor
  | .Weights set => .Weights set accessor

/-- The body of `Attributes::next` for one map entry: unwrap the checked
semantic key (panics on an unrecognized semantic), resolve the accessor index
(panics when out of range), and build the matching variant. -/
def attributeOf (g : Gltf) (entry : Checked Semantic × Nat) : Res Attribute :=
  match Checked.unwrap entry.1 with
  | .crash => .crash
  | .ok semantic =>
    match g.accessors_nth entry.2 with
    | none => .crash
    | some accessor => .ok (attrOfSem semantic accessor)

/-- `Attributes::next`: pop the next attribute-map entry and convert it, or
end the iteration. -/
def Attributes.next (g : Gltf) : Attributes → Res (Option (Attribute × Attributes))
  | { entries := [] } => .ok none
  | { entries := e :: rest } =>
    match attributeOf g e with
    | .crash => .crash
    | .ok a => .ok (some (a, { entries := rest }))

/-- Running an attribute-entry list to exhaustion, converting each entry (the
recursion underlying repeated `Attributes::next`); any panic along the way
aborts the run. -/
def attrList (g : Gltf) : List (Checked Semantic × Nat) → Res (List Attribute)
  | [] => .ok []
  | e :: rest =>
    match attributeOf g e with
    | .crash => .crash
    | .ok a =>
      match attrList g rest with
      | .crash => .crash
      | .ok tail => .ok (a :: tail)

/-- Running the `Attributes` iterator to exhaustion (repeated
`Attributes::next`). -/
def Attributes.toList (g : Gltf) (it : Attributes) : Res (List Attribute) :=
  attrList g it.entries

/-- State-passing form of a wrapper operation: the Rust methods borrow the
schema tree immutably (`&Gltf` / `&self`) and their bodies contain no write to
it, so the state-passing embedding of an invocation pairs the pure result with
the unchanged tree. -/
def Session.run {α : Type} (f : Gltf → α) (g : Gltf) : α × Gltf :=
  (f g, g)

/-- Running an operation twice in sequence through the state-passing session:
both results, and the tree left by the second invocation. -/
def Session.twice {α : Type} (f : Gltf → α) (g : Gltf) : α × α × Gltf :=
  ((Session.run f g).1, (Session.run f (Session.run f g).2).1,
    (Session.run f (Session.run f g).2).2)

/-- Mapping a function over the normal outcome of a possibly-panicking
computation (observer used to state properties of iteration results). -/
def Res.map {α β : Type} (f : α → β) : Res α → Res β
  | .crash => .crash
  | .ok a => .ok (f a)

/-- Observer: the number of attributes an iteration run produced. -/
def Res.lengthOf : Res (List Attribute) → Res Nat :=
  Res.map List.length

/-- Observer: the item at position `k` of an iteration run's output. -/
def Res.itemAt (k : Nat) : Res (List Attribute) → Res (Option Attribute) :=
  Res.map (fun l => l.get? k)

section HelperLemmas

lemma accessors_nth_eq_none {g : Gltf} {i : Nat} (h : g.accessors.length ≤ i) :
    g.accessors_nth i = none := by
  simp [Gltf.accessors_nth, List.get?_eq_none]
  exact h

lemma accessors_nth_eq_some {g : Gltf} {i : Nat} (h : i < g.accessors.length) :
    g.accessors_nth i = some { index := i, json := g.accessors.get ⟨i, h⟩ } := by
  simp [Gltf.accessors_nth, List.get?_eq_get h]

lemma materials_nth_eq_none {g : Gltf} {i : Nat} (h : g.materials.length ≤ i) :
    g.materials_nth i = none := by
  simp [Gltf.materials_nth, List.get?_eq_none]
  exact h

lemma materials_nth_eq_some {g : Gltf} {i : Nat} (h : i < g.materials.length) :
    g.materials_nth i = some (Material.atIndex i (g.materials.get ⟨i, h⟩)) := by
  simp [Gltf.materials_nth, List.get?_eq_get h]

lemma assocGet_eraseKey {κ ν : Type} [DecidableEq κ] {k k2 : κ} (hne : k ≠ k2)
    (l : List (κ × ν)) : assocGet (eraseKey k2 l) k = assocGet l k := by
  induction l with
  | nil => rfl
  | cons e rest ih =>
    by_cases he : e.1 = k2
    · have hek : ¬ e.1 = k := fun hk => hne (hk ▸ he)
      simp [eraseKey, assocGet, he, hek, ih, Ne.symm hne]
    · by_cases hek : e.1 = k
      · simp [eraseKey, assocGet, he, hek, hne]
      · simp [eraseKey, assocGet, he, hek, ih]

lemma enumerate_length {α : Type} : ∀ (l : List α) (b : Nat),
    (enumerate b l).length = l.length
  | [], _ => rfl
  | _ :: xs, b => by simp [enumerate, enumerate_length xs (b + 1)]

lemma enumerate_get? {α : Type} : ∀ (l : List α) (b k : Nat),
    (enumerate b l).get? k = (l.get? k).map (fun x => (b + k, x))
  | [], _, _ => by simp [enumerate]
  | x :: xs, b, 0 => by simp [enumerate]
  | x :: xs, b, k + 1 => by
    have ih := enumerate_get? xs (b + 1) k
    simp only [enumerate, List.get?, ih]
    have harith : b + 1 + k = b + (k + 1) := by omega
    rw [harith]

lemma primsList_length : ∀ (l : List (Nat × PrimitiveJson)),
    (primsList l).length = l.length
  | [] => rfl
  | _ :: rest => by simp [primsList, primsList_length rest]

lemma primsList_get? : ∀ (l : List (Nat × PrimitiveJson)) (k : Nat),
    (primsList l).get? k = (l.get? k).map (fun e => { index := e.1, json := e.2 })
  | [], _ => by simp [primsList]
  | e :: rest, 0 => by simp [primsList]
  | e :: rest, k + 1 => by
    simp only [primsList, List.get?]
    exact primsList_get? rest k

/-- Running the `Primitives` iterator to exhaustion really is repeated
`Primitives::next`. -/
lemma primitivesRunIsRepeatedNext (it : Primitives) :
    it.toList = match it.next with
      | none => []
      | some (p, it2) => p :: it2.toList := by
  cases it with
  | mk iter =>
    cases iter with
    | nil => rfl
    | cons e rest =>
      cases e
      rfl

/-- Running the `Attributes` iterator to exhaustion really is repeated
`Attributes::next`, with panics propagated. -/
lemma attributesRunIsRepeatedNext (g : Gltf) (it : Attributes) :
    Attributes.toList g it = match Attributes.next g it with
      | .crash => .crash
      | .ok none => .ok []
      | .ok (some (a, it2)) =>
        match Attributes.toList g it2 with
        | .crash => .crash
        | .ok tail => .ok (a :: tail) := by
  cases it with
  | mk entries =>
    cases entries with
    | nil => rfl
    | cons e rest =>
      cases hatt : attributeOf g e with
      | crash => simp [Attributes.toList, attrList, Attributes.next, hatt]
      | ok a => simp [Attributes.toList, attrList, Attributes.next, hatt]

/-- Under an attribute map whose entries all carry recognized semantics and
in-range accessor indices, iterating produces one matching item per entry, in
order. -/
lemma attrList_spec (g : Gltf) :
    ∀ (entries : List (Checked Semantic × Nat)),
      (∀ e ∈ entries, (∃ s, e.1 = Checked.Valid s) ∧ e.2 < g.accessors.length) →
      ∃ l, attrList g entries = .ok l ∧ l.length = entries.length ∧
        ∀ (k : Nat), k < entries.length →
          ∃ entry s acc, entries.get? k = some entry ∧
            entry.1 = Checked.Valid s ∧
            g.accessors_nth entry.2 = some acc ∧
            l.get? k = some (attrOfSem s acc) := by
  intro entries
  induction entries with
  | nil =>
    intro _
    exact ⟨[], rfl, rfl, fun k hk => absurd hk (Nat.not_lt_zero k)⟩
  | cons e rest ih =>
    intro h
    obtain ⟨⟨s, hs⟩, hlt⟩ := h e (List.mem_cons_self e rest)
    have hacc := accessors_nth_eq_some hlt
    obtain ⟨l, hl, hlen, hget⟩ := ih (fun x hx => h x (List.mem_cons_of_mem e hx))
    refine ⟨attrOfSem s { index := e.2, json := g.accessors.get ⟨e.2, hlt⟩ } :: l, ?_, ?_, ?_⟩
    · simp [attrList, attributeOf, hs, Checked.unwrap, hacc, hl]
    · simp [hlen]
    · intro k hk
      cases k with
      | zero =>
        exact ⟨e, s, { index := e.2, json := g.accessors.get ⟨e.2, hlt⟩ },
          rfl, hs, hacc, rfl⟩
      | succ n =>
        have hn : n < rest.length := by
          simp only [List.length_cons] at hk
          omega
        exact hget n hn

end HelperLemmas

/-- C1: a primitive attribute (or indices, or material) lookup whose stored
index is at or beyond the length of the Schema Tree's corresponding array
fails at index resolution (the `unwrap` of the failed `nth` panics, modelled
as `Res.crash`) — it never yields a silent default value. -/
theorem c1_oob_index_is_resolution_failure
    (g : Gltf) (p : Primitive) (semantic : Semantic) (index : Nat) :
    (assocGet p.json.attributes (Checked.Valid semantic) = some index →
      g.accessors.length ≤ index → Primitive.get g p semantic = .crash) ∧
    (p.json.indices = some index →
      g.accessors.length ≤ index → Primitive.indices g p = .crash) ∧
    (p.json.material = some index →
      g.materials.length ≤ index → Primitive.material g p = .crash) ∧
    (∀ rest, g.accessors.length ≤ index →
      Attributes.next g { entries := (Checked.Valid semantic, index) :: rest } = .crash) := by
  refine ⟨?_, ?_, ?_, ?_⟩
  · intro hlook hoob
    simp [Primitive.get, hlook, accessors_nth_eq_none hoob]
  · intro hind hoob
    simp [Primitive.indices, hind, accessors_nth_eq_none hoob]
  · intro hmat hoob
    simp [Primitive.material, hmat, materials_nth_eq_none hoob]
  · intro rest hoob
    simp [Attributes.next, attributeOf, Checked.unwrap, accessors_nth_eq_none hoob]

/-- Witness for C1 at a concrete document: an empty Schema Tree and a
primitive whose attribute, indices and material references all name index 5;
every lookup crashes. -/
theorem c1_oob_witness :
    Primitive.get { accessors := [], materials := [] }
      { index := 0,
        json := { attributes := [(Checked.Valid Semantic.Positions, 5)],
                  indices := some 5, material := some 5,
                  mode := Checked.Valid Mode.Triangles } }
      Semantic.Positions = .crash ∧
    Primitive.indices { accessors := [], materials := [] }
      { index := 0,
        json := { attributes := [(Checked.Valid Semantic.Positions, 5)],
                  indices := some 5, material := some 5,
                  mode := Checked.Valid Mode.Triangles } } = .crash ∧
    Primitive.material { accessors := [], materials := [] }
      { index := 0,
        json := { attributes := [(Checked.Valid Semantic.Positions, 5)],
                  indices := some 5, material := some 5,
                  mode := Checked.Valid Mode.Triangles } } = .crash ∧
    Attributes.next { accessors := [], materials := [] }
      { entries := [(Checked.Valid Semantic.Positions, 5)] } = .crash := by
  refine ⟨?_, ?_, ?_, ?_⟩
  · exact (c1_oob_index_is_resolution_failure
      { accessors := [], materials := [] }
      { index := 0,
        json := { attributes := [(Checked.Valid Semantic.Positions, 5)],
                  indices := some 5, material := some 5,
                  mode := Checked.Valid Mode.Triangles } }
      Semantic.Positions 5).1 (by decide) (by decide)
  · exact (c1_oob_index_is_resolution_failure
      { accessors := [], materials := [] }
      { index := 0,
        json := { attributes := [(Checked.Valid Semantic.Positions, 5)],
                  indices := some 5, material := some 5,
                  mode := Checked.Valid Mode.Triangles } }
      Semantic.Positions 5).2.1 rfl (by decide)
  · exact (c1_oob_index_is_resolution_failure
      { accessors := [], materials := [] }
      { index := 0,
        json := { attributes := [(Checked.Valid Semantic.Positions, 5)],
                  indices := some 5, material := some 5,
                  mode := Checked.Valid Mode.Triangles } }
      Semantic.Positions 5).2.2.1 rfl (by decide)
  · exact (c1_oob_index_is_resolution_failure
      { accessors := [], materials := [] }
      { index := 0,
        json := { attributes := [(Checked.Valid Semantic.Positions, 5)],
                  indices := some 5, material := some 5,
                  mode := Checked.Valid Mode.Triangles } }
      Semantic.Positions 5).2.2.2 [] (by decide)

/-- C2: looking up a semantic absent from the attribute map returns `ok none`
(not an error); `indices` returns `ok none` when the primitive stores no
indices reference; and erasing one semantic's entries from the map does not
change the lookup of a different semantic. -/
theorem c2_absent_attribute_is_none
    (g : Gltf) (p : Primitive) (semantic : Semantic) :
    (assocGet p.json.attributes (Checked.Valid semantic) = none →
      Primitive.get g p semantic = .ok none) ∧
    (p.json.indices = none → Primitive.indices g p = .ok none) ∧
    (∀ other, other ≠ semantic →
      Primitive.get g
        { p with json :=
          { p.json with attributes := eraseKey (Checked.Valid other) p.json.attributes } }
        semantic
      = Primitive.get g p semantic) := by
  refine ⟨?_, ?_, ?_⟩
  · intro hmiss
    simp [Primitive.get, hmiss]
  · intro hind
    simp [Primitive.indices, hind]
  · intro other hne
    have hkeys : Checked.Valid semantic ≠ Checked.Valid other := by
      intro h
      injection h with h2
      exact hne h2.symm
    simp only [Primitive.get, assocGet_eraseKey hkeys]

/-- Witness for C2: a primitive carrying only a Positions attribute yields
`ok none` for Normals, `ok none` for indices, and erasing the (absent)
Normals entries leaves the Positions lookup unchanged. -/
theorem c2_absent_attribute_witness :
    Primitive.get { accessors := [{ min := none, max := none }], materials := [] }
      { index := 0,
        json := { attributes := [(Checked.Valid Semantic.Positions, 0)],
                  indices := none, material := none,
                  mode := Checked.Valid Mode.Triangles } }
      Semantic.Normals = .ok none ∧
    Primitive.indices { accessors := [{ min := none, max := none }], materials := [] }
      { index := 0,
        json := { attributes := [(Checked.Valid Semantic.Positions, 0)],
                  indices := none, material := none,
                  mode := Checked.Valid Mode.Triangles } } = .ok none ∧
    Primitive.get { accessors := [{ min := none, max := none }], materials := [] }
      { index := 0,
        json := { attributes :=
                    eraseKey (Checked.Valid Semantic.Normals)
                      [(Checked.Valid Semantic.Positions, 0)],
                  indices := none, material := none,
                  mode := Checked.Valid Mode.Triangles } }
      Semantic.Positions
    = Primitive.get { accessors := [{ min := none, max := none }], materials := [] }
      { index := 0,
        json := { attributes := [(Checked.Valid Semantic.Positions, 0)],
                  indices := none, material := none,
                  mode := Checked.Valid Mode.Triangles } }
      Semantic.Positions := by
  refine ⟨?_, ?_, ?_⟩
  · exact (c2_absent_attribute_is_none
      { accessors := [{ min := none, max := none }], materials := [] }
      { index := 0,
        json := { attributes := [(Checked.Valid Semantic.Positions, 0)],
                  indices := none, material := none,
                  mode := Checked.Valid Mode.Triangles } }
      Semantic.Normals).1 (by decide)
  · exact (c2_absent_attribute_is_none
      { accessors := [{ min := none, max := none }], materials := [] }
      { index := 0,
        json := { attributes := [(Checked.Valid Semantic.Positions, 0)],
                  indices := none, material := none,
                  mode := Checked.Valid Mode.Triangles } }
      Semantic.Normals).2.1 rfl
  · exact (c2_absent_attribute_is_none
      { accessors := [{ min := none, max := none }], materials := [] }
      { index := 0,
        json := { attributes := [(Checked.Valid Semantic.Positions, 0)],
                  indices := none, material := none,
                  mode := Checked.Valid Mode.Triangles } }
      Semantic.Positions).2.2 Semantic.Normals (by decide)

/-- C10: `Primitive::mode` returns the stored render mode when it is a valid
mode value and panics (modelled as `Res.crash`) when the stored value is not
among the format's valid modes. -/
theorem c10_mode_unwrap (p : Primitive) (m : Mode) :
    (p.json.mode = Checked.Valid m → Primitive.mode p = .ok m) ∧
    (p.json.mode = Checked.Invalid → Primitive.mode p = .crash) := by
  constructor
  · intro h
    simp [Primitive.mode, h, Checked.unwrap]
  · intro h
    simp [Primitive.mode, h, Checked.unwrap]

/-- Witness for C10: a primitive with a valid mode returns it; one with an
invalid mode value crashes. -/
theorem c10_mode_witness :
    Primitive.mode
      { index := 0,
        json := { attributes := [], indices := none, material := none,
                  mode := Checked.Valid Mode.LineStrip } } = .ok Mode.LineStrip ∧
    Primitive.mode
      { index := 0,
        json := { attributes := [], indices := none, material := none,
                  mode := Checked.Invalid } } = .crash := by
  constructor
  · exact (c10_mode_unwrap
      { index := 0,
        json := { attributes := [], indices := none, material := none,
                  mode := Checked.Valid Mode.LineStrip } } Mode.LineStrip).1 rfl
  · exact (c10_mode_unwrap
      { index := 0,
        json := { attributes := [], indices := none, material := none,
                  mode := Checked.Invalid } } Mode.LineStrip).2 rfl

/-- C4: a primitive with no material reference resolves to the built-in
default material; one with an in-range material index resolves to the Schema
Tree material at that index. -/
theorem c4_material_resolution (g : Gltf) (p : Primitive) (index : Nat) :
    (p.json.material = none →
      Primitive.material g p = .ok Material.defaultMaterial) ∧
    (p.json.material = some index → ∀ (h : index < g.materials.length),
      Primitive.material g p = .ok (Material.atIndex index (g.materials.get ⟨index, h⟩))) := by
  constructor
  · intro hnone
    simp [Primitive.material, hnone]
  · intro hsome h
    simp [Primitive.material, hsome, materials_nth_eq_some h]

/-- Witness for C4 over a two-material document: one primitive without a
material reference gets the default material, another referencing index 1
gets the second tree material. -/
theorem c4_material_witness :
    Primitive.material
      { accessors := [], materials := [{ name := some "a" }, { name := some "b" }] }
      { index := 0,
        json := { attributes := [], indices := none, material := none,
                  mode := Checked.Valid Mode.Triangles } }
      = .ok Material.defaultMaterial ∧
    Primitive.material
      { accessors := [], materials := [{ name := some "a" }, { name := some "b" }] }
      { index := 1,
        json := { attributes := [], indices := none, material := some 1,
                  mode := Checked.Valid Mode.Triangles } }
      = .ok (Material.atIndex 1 { name := some "b" }) := by
  constructor
  · exact (c4_material_resolution
      { accessors := [], materials := [{ name := some "a" }, { name := some "b" }] }
      { index := 0,
        json := { attributes := [], indices := none, material := none,
                  mode := Checked.Valid Mode.Triangles } } 1).1 rfl
  · exact (c4_material_resolution
      { accessors := [], materials := [{ name := some "a" }, { name := some "b" }] }
      { index := 1,
        json := { attributes := [], indices := none, material := some 1,
                  mode := Checked.Valid Mode.Triangles } } 1).2 rfl (by decide)

/-- C5: `position_bounds` returns `ok none` when no Positions attribute is
present; when the Positions accessor resolves and its declared min and max
each decode as 3-component float vectors, it returns those decoded vectors as
the bounds. -/
theorem c5_position_bounds (g : Gltf) (p : Primitive) (index : Nat)
    (acc : Accessor) (mn mx : Value) (minv maxv : Rat × Rat × Rat) :
    (assocGet p.json.attributes (Checked.Valid Semantic.Positions) = none →
      Primitive.position_bounds g p = .ok none) ∧
    (assocGet p.json.attributes (Checked.Valid Semantic.Positions) = some index →
      g.accessors_nth index = some acc →
      acc.min = some mn → from_value_vec3 mn = some minv →
      acc.max = some mx → from_value_vec3 mx = some maxv →
      Primitive.position_bounds g p = .ok (some { min := minv, max := maxv })) := by
  constructor
  · intro hmiss
    simp [Primitive.position_bounds, hmiss]
  · intro hattr hacc h1 h2 h3 h4
    simp [Primitive.position_bounds, hattr, hacc, h1, h2, h3, h4]

/-- Witness for C5: a primitive without Positions yields `ok none`; one whose
Positions accessor declares min `[0,0,0]` and max `[1,2,3]` yields exactly
those bounds. -/
theorem c5_position_bounds_witness :
    Primitive.position_bounds
      { accessors := [], materials := [] }
      { index := 0,
        json := { attributes := [], indices := none, material := none,
                  mode := Checked.Valid Mode.Triangles } } = .ok none ∧
    Primitive.position_bounds
      { accessors := [{ min := some (.arr [.num 0, .num 0, .num 0]),
                        max := some (.arr [.num 1, .num 2, .num 3]) }],
        materials := [] }
      { index := 0,
        json := { attributes := [(Checked.Valid Semantic.Positions, 0)],
                  indices := none, material := none,
                  mode := Checked.Valid Mode.Triangles } }
      = .ok (some { min := (0, 0, 0), max := (1, 2, 3) }) := by
  constructor
  · exact (c5_position_bounds
      { accessors := [], materials := [] }
      { index := 0,
        json := { attributes := [], indices := none, material := none,
                  mode := Checked.Valid Mode.Triangles } }
      0 { index := 0, json := { min := none, max := none } }
      Value.other Value.other (0, 0, 0) (0, 0, 0)).1 rfl
  · exact (c5_position_bounds
      { accessors := [{ min := some (.arr [.num 0, .num 0, .num 0]),
                        max := some (.arr [.num 1, .num 2, .num 3]) }],
        materials := [] }
      { index := 0,
        json := { attributes := [(Checked.Valid Semantic.Positions, 0)],
                  indices := none, material := none,
                  mode := Checked.Valid Mode.Triangles } }
      0
      { index := 0,
        json := { min := some (.arr [.num 0, .num 0, .num 0]),
                  max := some (.arr [.num 1, .num 2, .num 3]) } }
      (.arr [.num 0, .num 0, .num 0]) (.arr [.num 1, .num 2, .num 3])
      (0, 0, 0) (1, 2, 3)).2 rfl rfl rfl rfl rfl rfl

/-- C6: when the Positions accessor resolves but its declared min or max is
missing or fails to decode as a 3-component float vector, the unchecked
`position_bounds` panics (modelled as `Res.crash`) instead of returning a
value or a silent default. -/
theorem c6_malformed_bounds_crash (g : Gltf) (p : Primitive) (index : Nat)
    (acc : Accessor)
    (hattr : assocGet p.json.attributes (Checked.Valid Semantic.Positions) = some index)
    (hacc : g.accessors_nth index = some acc)
    (hbad : acc.min = none ∨ acc.max = none ∨
      (∀ mn, acc.min = some mn → from_value_vec3 mn = none) ∨
      (∀ mx, acc.max = some mx → from_value_vec3 mx = none)) :
    Primitive.position_bounds g p = .crash := by
  cases h1 : acc.min with
  | none => simp [Primitive.position_bounds, hattr, hacc, h1]
  | some mn =>
    cases h2 : from_value_vec3 mn with
    | none => simp [Primitive.position_bounds, hattr, hacc, h1, h2]
    | some minv =>
      cases h3 : acc.max with
      | none => simp [Primitive.position_bounds, hattr, hacc, h1, h2, h3]
      | some mx =>
        cases h4 : from_value_vec3 mx with
        | none => simp [Primitive.position_bounds, hattr, hacc, h1, h2, h3, h4]
        | some maxv =>
          exfalso
          rcases hbad with h | h | h | h
          · rw [h] at h1
            simp at h1
          · rw [h] at h3
            simp at h3
          · have hv := h mn h1
            rw [h2] at hv
            simp at hv
          · have hv := h mx h3
            rw [h4] at hv
            simp at hv

/-- Witness for C6: a Positions accessor with no declared min makes
`position_bounds` crash. -/
theorem c6_malformed_bounds_witness :
    Primitive.position_bounds
      { accessors := [{ min := none,
                        max := some (.arr [.num 1, .num 2, .num 3]) }],
        materials := [] }
      { index := 0,
        json := { attributes := [(Checked.Valid Semantic.Positions, 0)],
                  indices := none, material := none,
                  mode := Checked.Valid Mode.Triangles } } = .crash := by
  exact c6_malformed_bounds_crash
    { accessors := [{ min := none,
                      max := some (.arr [.num 1, .num 2, .num 3]) }],
      materials := [] }
    { index := 0,
      json := { attributes := [(Checked.Valid Semantic.Positions, 0)],
                indices := none, material := none,
                mode := Checked.Valid Mode.Triangles } }
    0
    { index := 0,
      json := { min := none, max := some (.arr [.num 1, .num 2, .num 3]) } }
    rfl rfl (Or.inl rfl)

/-- C7 counterexample: over a document whose accessor array makes index 0
perfectly valid, an attribute-map entry whose semantic tag is unrecognized
(`Checked.Invalid`) makes attribute iteration panic (`Res.crash`): no item —
in particular no "unrecognized" variant, which the `Attribute` type does not
even have — is ever yielded for it. -/
theorem c7_unrecognized_crashes_counterexample :
    Attributes.next { accessors := [{ min := none, max := none }], materials := [] }
      { entries := [(Checked.Invalid, 0)] } = .crash ∧
    Attributes.toList { accessors := [{ min := none, max := none }], materials := [] }
      { entries := [(Checked.Invalid, 0)] } = .crash :=
  ⟨rfl, rfl⟩

/-- C7 (amended): an attribute-map entry with an unrecognized semantic tag is
not dropped silently, but it is not surfaced through any variant either —
iteration panics (`Res.crash`) at that entry, and a full iteration over a map
containing such an entry never produces a list. -/
theorem c7_unrecognized_semantic_crashes
    (g : Gltf) (index : Nat) (rest entries : List (Checked Semantic × Nat)) :
    (Attributes.next g { entries := (Checked.Invalid, index) :: rest } = .crash) ∧
    ((Checked.Invalid, index) ∈ entries →
      Attributes.toList g { entries := entries } = .crash) := by
  constructor
  · rfl
  · intro hmem
    induction entries with
    | nil => cases hmem
    | cons e tail ih =>
      rcases List.mem_cons.mp hmem with heq | hmem2
      · rw [← heq]
        rfl
      · cases hatt : attributeOf g e with
        | crash => simp [Attributes.toList, attrList, hatt]
        | ok a =>
          have ih2 : attrList g tail = Res.crash := ih hmem2
          simp [Attributes.toList, attrList, hatt, ih2]

/-- Witness for C7 (amended): a two-entry map whose second entry has an
unrecognized semantic; the full iteration crashes. -/
theorem c7_unrecognized_semantic_witness :
    Attributes.next { accessors := [{ min := none, max := none }], materials := [] }
      { entries := [(Checked.Invalid, 0)] } = .crash ∧
    Attributes.toList { accessors := [{ min := none, max := none }], materials := [] }
      { entries := [(Checked.Valid Semantic.Positions, 0), (Checked.Invalid, 0)] }
      = .crash := by
  constructor
  · exact (c7_unrecognized_semantic_crashes
      { accessors := [{ min := none, max := none }], materials := [] } 0 []
      [(Checked.Valid Semantic.Positions, 0), (Checked.Invalid, 0)]).1
  · exact (c7_unrecognized_semantic_crashes
      { accessors := [{ min := none, max := none }], materials := [] } 0 []
      [(Checked.Valid Semantic.Positions, 0), (Checked.Invalid, 0)]).2
      (by decide)

/-- C9: every wrapper operation is a pure read — invoked twice in sequence on
the same mesh or primitive it returns equal results both times, and the
Schema Tree after both invocations is the tree they started from. -/
theorem c9_wrappers_pure (g : Gltf) (m : Mesh) (p : Primitive) (s : Semantic) :
    ((Session.twice (fun _ => Mesh.primitives m) g).1
        = (Session.twice (fun _ => Mesh.primitives m) g).2.1 ∧
      (Session.twice (fun _ => Mesh.primitives m) g).2.2 = g) ∧
    ((Session.twice (fun _ => Mesh.weights m) g).1
        = (Session.twice (fun _ => Mesh.weights m) g).2.1 ∧
      (Session.twice (fun _ => Mesh.weights m) g).2.2 = g) ∧
    ((Session.twice (fun t => Primitive.get t p s) g).1
        = (Session.twice (fun t => Primitive.get t p s) g).2.1 ∧
      (Session.twice (fun t => Primitive.get t p s) g).2.2 = g) ∧
    ((Session.twice (fun t => Primitive.indices t p) g).1
        = (Session.twice (fun t => Primitive.indices t p) g).2.1 ∧
      (Session.twice (fun t => Primitive.indices t p) g).2.2 = g) ∧
    ((Session.twice (fun t => Primitive.material t p) g).1
        = (Session.twice (fun t => Primitive.material t p) g).2.1 ∧
      (Session.twice (fun t => Primitive.material t p) g).2.2 = g) ∧
    ((Session.twice (fun t => Primitive.position_bounds t p) g).1
        = (Session.twice (fun t => Primitive.position_bounds t p) g).2.1 ∧
      (Session.twice (fun t => Primitive.position_bounds t p) g).2.2 = g) ∧
    ((Session.twice (fun _ => Primitive.attributes p) g).1
        = (Session.twice (fun _ => Primitive.attributes p) g).2.1 ∧
      (Session.twice (fun _ => Primitive.attributes p) g).2.2 = g) :=
  ⟨⟨rfl, rfl⟩, ⟨rfl, rfl⟩, ⟨rfl, rfl⟩, ⟨rfl, rfl⟩, ⟨rfl, rfl⟩, ⟨rfl, rfl⟩, ⟨rfl, rfl⟩⟩

/-- C3: when every attribute-map entry carries a recognized semantic and an
in-range accessor index, iterating `Primitive::attributes` to exhaustion
yields exactly one item per entry of the map — no entry dropped, none
duplicated — and the item at position `k` is the `Attribute` variant matching
the `k`-th entry's semantic, wrapping the accessor resolved at that entry's
index. -/
theorem c3_attribute_iteration (g : Gltf) (p : Primitive)
    (hok : ∀ e ∈ p.json.attributes,
      (∃ s, e.1 = Checked.Valid s) ∧ e.2 < g.accessors.length) :
    Res.lengthOf (Attributes.toList g (Primitive.attributes p))
      = .ok p.json.attributes.length ∧
    ∀ (k : Nat) (entry : Checked Semantic × Nat) (s : Semantic) (acc : Accessor),
      p.json.attributes.get? k = some entry →
      entry.1 = Checked.Valid s →
      g.accessors_nth entry.2 = some acc →
      Res.itemAt k (Attributes.toList g (Primitive.attributes p))
        = .ok (some (attrOfSem s acc)) := by
  obtain ⟨l, hl, hlen, hget⟩ := attrList_spec g p.json.attributes hok
  have htl : Attributes.toList g (Primitive.attributes p) = .ok l := hl
  constructor
  · rw [htl]
    simp [Res.lengthOf, Res.map, hlen]
  · intro k entry s acc hk hs hacc
    have hklt : k < p.json.attributes.length := by
      by_contra hge
      rw [List.get?_eq_none.mpr (Nat.le_of_not_lt hge)] at hk
      exact Option.noConfusion hk
    obtain ⟨entry2, s2, acc2, h1, h2, h3, h4⟩ := hget k hklt
    rw [hk] at h1
    injection h1 with h1
    subst h1
    rw [hs] at h2
    injection h2 with h2
    subst h2
    rw [hacc] at h3
    injection h3 with h3
    subst h3
    rw [htl]
    simp only [Res.itemAt, Res.map]
    rw [h4]

/-- Witness for C3: a two-entry attribute map over a two-accessor document;
the run yields two items, a Positions variant wrapping accessor 1 and a
TexCoords variant wrapping accessor 0, in map order. -/
theorem c3_attribute_iteration_witness :
    Res.lengthOf (Attributes.toList
      { accessors := [{ min := none, max := none },
                      { min := some Value.other, max := none }],
        materials := [] }
      (Primitive.attributes
        { index := 0,
          json := { attributes := [(Checked.Valid Semantic.Positions, 1),
                                   (Checked.Valid (Semantic.TexCoords 0), 0)],
                    indices := none, material := none,
                    mode := Checked.Valid Mode.Triangles } })) = .ok 2 ∧
    Res.itemAt 0 (Attributes.toList
      { accessors := [{ min := none, max := none },
                      { min := some Value.other, max := none }],
        materials := [] }
      (Primitive.attributes
        { index := 0,
          json := { attributes := [(Checked.Valid Semantic.Positions, 1),
                                   (Checked.Valid (Semantic.TexCoords 0), 0)],
                    indices := none, material := none,
                    mode := Checked.Valid Mode.Triangles } }))
      = .ok (some (Attribute.Positions
          { index := 1, json := { min := some Value.other, max := none } })) ∧
    Res.itemAt 1 (Attributes.toList
      { accessors := [{ min := none, max := none },
                      { min := some Value.other, max := none }],
        materials := [] }
      (Primitive.attributes
        { index := 0,
          json := { attributes := [(Checked.Valid Semantic.Positions, 1),
                                   (Checked.Valid (Semantic.TexCoords 0), 0)],
                    indices := none, material := none,
                    mode := Checked.Valid Mode.Triangles } }))
      = .ok (some (Attribute.TexCoords 0
          { index := 0, json := { min := none, max := none } })) := by
  have hok : ∀ e ∈ [(Checked.Valid Semantic.Positions, 1),
                    (Checked.Valid (Semantic.TexCoords 0), 0)],
      (∃ s, e.1 = Checked.Valid s) ∧
        e.2 < (Gltf.mk [{ min := none, max := none },
                        { min := some Value.other, max := none }] []).accessors.length := by
    intro e he
    rcases List.mem_cons.mp he with rfl | he2
    · exact ⟨⟨Semantic.Positions, rfl⟩, by decide⟩
    · rcases List.mem_cons.mp he2 with rfl | he3
      · exact ⟨⟨Semantic.TexCoords 0, rfl⟩, by decide⟩
      · cases he3
  refine ⟨?_, ?_, ?_⟩
  · exact (c3_attribute_iteration
      { accessors := [{ min := none, max := none },
                      { min := some Value.other, max := none }],
        materials := [] }
      { index := 0,
        json := { attributes := [(Checked.Valid Semantic.Positions, 1),
                                 (Checked.Valid (Semantic.TexCoords 0), 0)],
                  indices := none, material := none,
                  mode := Checked.Valid Mode.Triangles } } hok).1
  · exact (c3_attribute_iteration
      { accessors := [{ min := none, max := none },
                      { min := some Value.other, max := none }],
        materials := [] }
      { index := 0,
        json := { attributes := [(Checked.Valid Semantic.Positions, 1),
                                 (Checked.Valid (Semantic.TexCoords 0), 0)],
                  indices := none, material := none,
                  mode := Checked.Valid Mode.Triangles } } hok).2
      0 (Checked.Valid Semantic.Positions, 1) Semantic.Positions
      { index := 1, json := { min := some Value.other, max := none } } rfl rfl rfl
  · exact (c3_attribute_iteration
      { accessors := [{ min := none, max := none },
                      { min := some Value.other, max := none }],
        materials := [] }
      { index := 0,
        json := { attributes := [(Checked.Valid Semantic.Positions, 1),
                                 (Checked.Valid (Semantic.TexCoords 0), 0)],
                  indices := none, material := none,
                  mode := Checked.Valid Mode.Triangles } } hok).2
      1 (Checked.Valid (Semantic.TexCoords 0), 0) (Semantic.TexCoords 0)
      { index := 0, json := { min := none, max := none } } rfl rfl rfl

/-- C8: running `Mesh::primitives` to exhaustion yields one `Primitive` per
entry of the mesh's JSON primitive array, in array order, the `k`-th wrapper
built from the `k`-th JSON primitive and carrying internal index `k`. -/
theorem c8_primitives_enumeration (m : Mesh) :
    (Mesh.primitives m).toList.length = m.json.primitives.length ∧
    ∀ (k : Nat) (hk : k < m.json.primitives.length),
      (Mesh.primitives m).toList.get? k
        = some { index := k, json := m.json.primitives.get ⟨k, hk⟩ } := by
  constructor
  · show (primsList (enumerate 0 m.json.primitives)).length = _
    rw [primsList_length, enumerate_length]
  · intro k hk
    show (primsList (enumerate 0 m.json.primitives)).get? k = _
    rw [primsList_get?, enumerate_get? m.json.primitives 0 k, List.get?_eq_get hk]
    simp

/-- Witness for C8: a two-primitive mesh yields two wrappers, and the wrapper
at position 1 is built from the second JSON primitive with index 1. -/
theorem c8_primitives_witness :
    (Mesh.primitives
      { index := 0,
        json := { primitives :=
                    [{ attributes := [], indices := none, material := none,
                       mode := Checked.Valid Mode.Points },
                     { attributes := [], indices := some 7, material := none,
                       mode := Checked.Valid Mode.Lines }],
                  weights := none } }).toList.length = 2 ∧
    (Mesh.primitives
      { index := 0,
        json := { primitives :=
                    [{ attributes := [], indices := none, material := none,
                       mode := Checked.Valid Mode.Points },
                     { attributes := [], indices := some 7, material := none,
                       mode := Checked.Valid Mode.Lines }],
                  weights := none } }).toList.get? 1
      = some { index := 1,
               json := { attributes := [], indices := some 7, material := none,
                         mode := Checked.Valid Mode.Lines } } := by
  constructor
  · exact (c8_primitives_enumeration
      { index := 0,
        json := { primitives :=
                    [{ attributes := [], indices := none, material := none,
                       mode := Checked.Valid Mode.Points },
                     { attributes := [], indices := some 7, material := none,
                       mode := Checked.Valid Mode.Lines }],
                  weights := none } }).1
  · exact (c8_primitives_enumeration
      { index := 0,
        json := { primitives :=
                    [{ attributes := [], indices := none, material := none,
                       mode := Checked.Valid Mode.Points },
                     { attributes := [], indices := some 7, material := none,
                       mode := Checked.Valid Mode.Lines }],
                  weights := none } }).2 1 (by decide)

end GltfSpec
